import Mathlib

/-!
Verification of the `SafePythonInterpreter` core
(`src/creator/code_interpreter/safe_python.py`) of the open-creator
repository, as a shallow embedding in Lean 4.

The embedding models:
  * the runtime values and the persistent namespace (a Python `dict`
    from identifier to value, modelled as an ordered association list);
  * the abstract syntax of the Python fragment the interpreter handles
    (`Expr`/`Stmt`), together with `ast.unparse` and `ast.walk`
    (CPython's `ast.walk` is a breadth-first traversal; it is modelled
    level by level, with a structural fuel that is always sufficient);
  * the policy checker `preprocess` with its two allow-lists
    (`is_allowed_function`, `is_allowed_method`);
  * the execution engine: `execute_code_blocks`, `is_expression`,
    `execute_last_line`, `run_code`, `run_with_return` and `_run`.
    The worker thread with its join-timeout is modelled by a fuel
    parameter: exhausting the fuel corresponds to the thread still
    being alive when `thread.join(timeout=...)` returns.

Faults raised by executed code are values of type `PyErr`
(exception-class name and message); `traceback` exception tuples stored
in the namespace are modelled by `Value.excInfo`.  A `TypeError`
raised by `traceback.format_exception` itself when its argument is not
an exception tuple (which propagates natively to the caller of the
tool) is modelled by the `Except.error` case of `run_with_return` and
`_run`.
-/

namespace SafePython

/-- An exception as raised by executed Python code: class name and message. -/
abbrev PyErr := String × String

/-- Runtime values of the modelled Python fragment. -/
inductive Value
  | none
  | bool (b : Bool)
  | int (n : Int)
  | str (s : String)
  | module (m : String)
  | funcVal (f : String)
  | classVal (c : String)
  | printFn
  | excInfo (ty msg : String)
deriving DecidableEq

/-- Python truthiness of a value (`if v:`). -/
def truthy : Value → Bool
  | .none => false
  | .bool b => b
  | .int n => decide (n ≠ 0)
  | .str s => decide (s ≠ "")
  | .module _ => true
  | .funcVal _ => true
  | .classVal _ => true
  | .printFn => true
  | .excInfo _ _ => true

/-- Python `str()` of a value. -/
def pyStr : Value → String
  | .none => "None"
  | .bool b => if b then "True" else "False"
  | .int n => toString n
  | .str s => s
  | .module m => "<module " ++ m ++ ">"
  | .funcVal f => "<function " ++ f ++ ">"
  | .classVal c => "<class " ++ c ++ ">"
  | .printFn => "<built-in function print>"
  | .excInfo ty msg => "(" ++ ty ++ ", " ++ msg ++ ")"

/-- Python `repr()` of a literal, as used by `ast.unparse` for constants. -/
def pyRepr : Value → String
  | .str s => "'" ++ s ++ "'"
  | v => pyStr v

/-- The Python type name of a value, used in error messages. -/
def typeName : Value → String
  | .none => "NoneType"
  | .bool _ => "bool"
  | .int _ => "int"
  | .str _ => "str"
  | .module _ => "module"
  | .funcVal _ => "function"
  | .classVal _ => "type"
  | .printFn => "builtin_function_or_method"
  | .excInfo _ _ => "tuple"

/-- The interpreter's namespace: a Python dict from identifiers to values,
modelled as an insertion-ordered association list with unique keys. -/
abbrev Namespace := List (String × Value)

/-- Dictionary lookup `ns.get(k)` / `ns[k]`. -/
def nsGet : Namespace → String → Option Value
  | [], _ => Option.none
  | (k1, v1) :: rest, k => if k1 = k then some v1 else nsGet rest k

/-- Dictionary update `ns[k] = v`: replaces in place, or appends a new binding. -/
def nsSet : Namespace → String → Value → Namespace
  | [], k, v => [(k, v)]
  | (k1, v1) :: rest, k, v =>
    if k1 = k then (k, v) :: rest else (k1, v1) :: nsSet rest k v

/-- Dictionary removal, as done by `ns.pop(k, None)`: drops the binding, if any. -/
def nsPop : Namespace → String → Namespace
  | [], _ => []
  | (k1, v1) :: rest, k => if k1 = k then rest else (k1, v1) :: nsPop rest k

/-- Python `ns.pop(k, None)`: the removed value (if any) and the updated dict. -/
def nsPopGet (ns : Namespace) (k : String) : Option Value × Namespace :=
  (nsGet ns k, nsPop ns k)

/-- Binary operators of the modelled expression fragment. -/
inductive BinOp
  | add
  | div
deriving DecidableEq

/-- Expressions of the modelled Python fragment (`ast.expr`). -/
inductive Expr
  | name (id : String)
  | constE (v : Value)
  | attr (obj : Expr) (fld : String)
  | call (fn : Expr) (args : List Expr)
  | binop (a : Expr) (op : BinOp) (b : Expr)

/-- Top-level statements of the modelled Python fragment (`ast.stmt`).
`imp`/`impFrom` model `ast.Import`/`ast.ImportFrom`. -/
inductive Stmt
  | imp (mods : List String)
  | impFrom (mod : String) (names : List String)
  | functionDef (nm : String) (body : List Stmt)
  | classDef (nm : String) (body : List Stmt)
  | assign (target : String) (e : Expr)
  | exprStmt (e : Expr)
  | whileStmt (test : Expr) (body : List Stmt)
  | passStmt

/-- A submitted source string, identified with its parse outcome:
`ast.parse` either yields a module body or raises a `SyntaxError`. -/
inductive Src
  | ok (prog : List Stmt)
  | bad (e : PyErr)

def opText : BinOp → String
  | .add => "+"
  | .div => "/"

mutual
/-- `ast.unparse` on the modelled expression fragment. -/
def unparse : Expr → String
  | .name id => id
  | .constE v => pyRepr v
  | .attr obj fld => unparse obj ++ "." ++ fld
  | .call fn args => unparse fn ++ "(" ++ String.intercalate ", " (unparseList args) ++ ")"
  | .binop a op b => unparse a ++ " " ++ opText op ++ " " ++ unparse b

def unparseList : List Expr → List String
  | [] => []
  | e :: r => unparse e :: unparseList r
end

/-- Whether `p` starts with `pat` (character lists). -/
def startsWithL : List Char → List Char → Bool
  | _, [] => true
  | [], _ :: _ => false
  | c :: cs, p :: ps => c == p && startsWithL cs ps

/-- Whether `pat` occurs as a contiguous substring of `s` (character lists). -/
def hasSubL : List Char → List Char → Bool
  | [], pat => startsWithL [] pat
  | c :: cs, pat => startsWithL (c :: cs) pat || hasSubL cs pat

/-- The Python substring test `pat in s`. -/
def strContains (s pat : String) : Bool := hasSubL s.toList pat.toList

/-- `SafePythonInterpreter.ALLOWED_FUNCTIONS`. -/
def ALLOWED_FUNCTIONS : List String := ["create", "save", "search", "CodeSkill"]

/-- `SafePythonInterpreter.ALLOW_METHODS`. -/
def ALLOW_METHODS : List String :=
  [".show", ".test", ".run", "__add__", "__gt__", "__lt__", "__annotations__"]

/-- `is_allowed_function`: the node is a call of a bare name in `ALLOWED_FUNCTIONS`. -/
def is_allowed_function : Expr → Bool
  | .call (.name id) _ => ALLOWED_FUNCTIONS.contains id
  | _ => false

/-- `is_allowed_method`: the node is a call whose unparsed callee contains one
of the `ALLOW_METHODS` substrings. -/
def is_allowed_method : Expr → Bool
  | .call fn _ => ALLOW_METHODS.any (fun m => strContains (unparse fn) m)
  | _ => false

/-- A node of the walked syntax tree: the module, a statement, or an expression. -/
inductive Node
  | mod (body : List Stmt)
  | stmt (s : Stmt)
  | expr (e : Expr)

/-- The child nodes of a node, in CPython `ast.iter_child_nodes` order. -/
def children : Node → List Node
  | .mod body => body.map Node.stmt
  | .stmt (.imp _) => []
  | .stmt (.impFrom _ _) => []
  | .stmt (.functionDef _ body) => body.map Node.stmt
  | .stmt (.classDef _ body) => body.map Node.stmt
  | .stmt (.assign _ e) => [Node.expr e]
  | .stmt (.exprStmt e) => [Node.expr e]
  | .stmt (.whileStmt t body) => Node.expr t :: body.map Node.stmt
  | .stmt .passStmt => []
  | .expr (.name _) => []
  | .expr (.constE _) => []
  | .expr (.attr obj _) => [Node.expr obj]
  | .expr (.call fn args) => Node.expr fn :: args.map Node.expr
  | .expr (.binop a _ b) => [Node.expr a, Node.expr b]

mutual
def sizeStmt : Stmt → Nat
  | .imp _ => 1
  | .impFrom _ _ => 1
  | .functionDef _ body => 1 + sizeStmts body
  | .classDef _ body => 1 + sizeStmts body
  | .assign _ e => 1 + sizeExpr e
  | .exprStmt e => 1 + sizeExpr e
  | .whileStmt t body => 1 + sizeExpr t + sizeStmts body
  | .passStmt => 1

def sizeStmts : List Stmt → Nat
  | [] => 0
  | s :: r => sizeStmt s + sizeStmts r

def sizeExpr : Expr → Nat
  | .name _ => 1
  | .constE _ => 1
  | .attr obj _ => 1 + sizeExpr obj
  | .call fn args => 1 + sizeExpr fn + sizeExprs args
  | .binop a _ b => 1 + sizeExpr a + 1 + sizeExpr b

def sizeExprs : List Expr → Nat
  | [] => 0
  | e :: r => sizeExpr e + sizeExprs r
end

/-- Breadth-first traversal, level by level, with enough fuel for all levels.
`walkFuel f l` lists `l` followed by the BFS of all children of `l`;
this is the visiting order of CPython's `ast.walk` (a FIFO queue). -/
def walkFuel : Nat → List Node → List Node
  | 0, _ => []
  | _ + 1, [] => []
  | f + 1, l => l ++ walkFuel f (l.flatMap children)

/-- The number of BFS levels below a node is bounded by its size, so
`1 + sizeStmts prog` levels of fuel always suffice for `ast.walk`. -/
def ast_walk (prog : List Stmt) : List Node :=
  walkFuel (1 + sizeStmts prog) [Node.mod prog]

/-- The check performed on each walked node under restriction: disallowed
statement kinds are rejected by class name, call nodes must pass one of the
two allow-lists.  Returns the `ValueError` message, if any. -/
def node_violation : Node → Option String
  | .stmt (.imp _) => some "Usage of Import nodes is not allowed"
  | .stmt (.impFrom _ _) => some "Usage of ImportFrom nodes is not allowed"
  | .stmt (.functionDef _ _) => some "Usage of FunctionDef nodes is not allowed"
  | .stmt (.classDef _ _) => some "Usage of ClassDef nodes is not allowed"
  | .expr (.call fn args) =>
    if is_allowed_function (.call fn args) || is_allowed_method (.call fn args) then
      Option.none
    else
      some ("Usage of disallowed function/method: " ++ unparse (.call fn args))
  | _ => Option.none

/-- A statement node of one of the four disallowed kinds. -/
def disallowedStmtNode : Node → Bool
  | .stmt (.imp _) => true
  | .stmt (.impFrom _ _) => true
  | .stmt (.functionDef _ _) => true
  | .stmt (.classDef _ _) => true
  | _ => false

/-- `SafePythonInterpreter.preprocess`: parse the query; under restriction
walk the tree and reject disallowed nodes.  On any exception the info is
saved under `_preprocess_info` in the namespace and `""` (the empty
program) is returned; otherwise the original query is returned. -/
def preprocess (setup_done : Bool) (ns : Namespace) (src : Src) : Namespace × List Stmt :=
  match src with
  | .bad e => (nsSet ns "_preprocess_info" (.excInfo e.1 e.2), [])
  | .ok tree =>
    if setup_done then
      match (ast_walk tree).findSome? node_violation with
      | some msg => (nsSet ns "_preprocess_info" (.excInfo "ValueError" msg), [])
      | Option.none => (ns, tree)
    else (ns, tree)

end SafePython

namespace SafePython

/-- Evaluation result of an expression: the text printed to the redirected
stdout while evaluating, and either the value or the raised exception. -/
abbrev EvalOut := String × Except PyErr Value

/-- Semantics of the binary operators (`+` on ints and strings, `/` on ints).
CPython true division of nonzero ints yields a float; no program in this
development divides by a nonzero denominator, so the quotient is kept
integral here. -/
def applyBin (a : Value) (op : BinOp) (b : Value) : Except PyErr Value :=
  match op, a, b with
  | .add, .int x, .int y => .ok (.int (x + y))
  | .add, .str x, .str y => .ok (.str (x ++ y))
  | .add, x, y =>
    .error ("TypeError",
      "unsupported operand type(s) for +: '" ++ typeName x ++ "' and '" ++ typeName y ++ "'")
  | .div, .int _, .int 0 => .error ("ZeroDivisionError", "division by zero")
  | .div, .int x, .int y => .ok (.int (x / y))
  | .div, x, _ =>
    .error ("TypeError", "unsupported operand type(s) for /: '" ++ typeName x ++ "'")

mutual
/-- Evaluation of an expression against the namespace.  Expressions in the
modelled fragment cannot assign, so the namespace is read-only here; `print`
is the one callable builtin (resolved after the namespace, like CPython's
builtins), and it writes to the redirected stdout. -/
def evalExpr (ns : Namespace) : Expr → EvalOut
  | .constE v => ("", .ok v)
  | .name id =>
    match nsGet ns id with
    | some v => ("", .ok v)
    | Option.none =>
      if id = "print" then ("", .ok .printFn)
      else ("", .error ("NameError", "name '" ++ id ++ "' is not defined"))
  | .attr obj fld =>
    match evalExpr ns obj with
    | (out, .error e) => (out, .error e)
    | (out, .ok v) =>
      (out, .error ("AttributeError",
        "'" ++ typeName v ++ "' object has no attribute '" ++ fld ++ "'"))
  | .binop a op b =>
    match evalExpr ns a with
    | (out, .error e) => (out, .error e)
    | (out, .ok va) =>
      match evalExpr ns b with
      | (out2, .error e) => (out ++ out2, .error e)
      | (out2, .ok vb) => (out ++ out2, applyBin va op vb)
  | .call fn args =>
    match evalExpr ns fn with
    | (out, .error e) => (out, .error e)
    | (out, .ok vf) =>
      match evalArgs ns args with
      | (out2, .error e) => (out ++ out2, .error e)
      | (out2, .ok vs) =>
        match vf with
        | .printFn =>
          (out ++ out2 ++ String.intercalate " " (vs.map pyStr) ++ "\n", .ok .none)
        | v => (out ++ out2, .error ("TypeError", "'" ++ typeName v ++ "' object is not callable"))

/-- Left-to-right evaluation of an argument list, stopping at the first fault. -/
def evalArgs (ns : Namespace) : List Expr → String × Except PyErr (List Value)
  | [] => ("", .ok [])
  | e :: r =>
    match evalExpr ns e with
    | (out, .error er) => (out, .error er)
    | (out, .ok v) =>
      match evalArgs ns r with
      | (out2, .error er) => (out ++ out2, .error er)
      | (out2, .ok vs) => (out ++ out2, .ok (v :: vs))
end

/-- Outcome of running statements on the worker thread: normal completion
(with the remaining fuel), a raised exception, or fuel exhaustion — the
latter models the thread still running when the join times out.  `out` is
the text accumulated in the redirected stdout buffer. -/
inductive ExecRes
  | ok (ns : Namespace) (out : String) (fuelLeft : Nat)
  | exc (ns : Namespace) (out : String) (err : PyErr)
  | more (ns : Namespace) (out : String)
deriving DecidableEq

/-- Small-step execution of a statement sequence with fuel: one unit of fuel
per executed statement (a `while` whose test is true unrolls its body in
front of the continuation).  Mirrors sequential `exec` of top-level
statements against the shared namespace. -/
def execStmts : Nat → Namespace → String → List Stmt → ExecRes
  | fuel, ns, acc, [] => .ok ns acc fuel
  | 0, ns, acc, _ :: _ => .more ns acc
  | fuel + 1, ns, acc, s :: rest =>
    match s with
    | .imp mods =>
      execStmts fuel (mods.foldl (fun a m => nsSet a m (.module m)) ns) acc rest
    | .impFrom mod names =>
      execStmts fuel (names.foldl (fun a m => nsSet a m (.module mod)) ns) acc rest
    | .functionDef nm _ => execStmts fuel (nsSet ns nm (.funcVal nm)) acc rest
    | .classDef nm _ => execStmts fuel (nsSet ns nm (.classVal nm)) acc rest
    | .passStmt => execStmts fuel ns acc rest
    | .assign target e =>
      match evalExpr ns e with
      | (out, .error er) => .exc ns (acc ++ out) er
      | (out, .ok v) => execStmts fuel (nsSet ns target v) (acc ++ out) rest
    | .exprStmt e =>
      match evalExpr ns e with
      | (out, .error er) => .exc ns (acc ++ out) er
      | (out, .ok _) => execStmts fuel ns (acc ++ out) rest
    | .whileStmt t body =>
      match evalExpr ns t with
      | (out, .error er) => .exc ns (acc ++ out) er
      | (out, .ok v) =>
        if truthy v then execStmts fuel ns (acc ++ out) (body ++ s :: rest)
        else execStmts fuel ns (acc ++ out) rest

/-- `execute_code_blocks`: run the body blocks sequentially, capturing output. -/
def execute_code_blocks (fuel : Nat) (ns : Namespace) (blocks : List Stmt) : ExecRes :=
  execStmts fuel ns "" blocks

/-- `is_expression`: whether the text of the statement compiles in `eval`
mode, i.e. whether it is an expression statement. -/
def is_expression : Stmt → Bool
  | .exprStmt _ => true
  | _ => false

/-- `execute_last_line`: if the tail group is an expression, evaluate it and
prepend the textual representation of a non-`None` value to the printed
output; otherwise execute it as a statement (no value capture). -/
def execute_last_line (fuel : Nat) (ns : Namespace) (last : Stmt) : ExecRes :=
  match last with
  | .exprStmt e =>
    match evalExpr ns e with
    | (printed, .error er) => .exc ns printed er
    | (printed, .ok v) =>
      .ok ns ((if v = Value.none then "" else pyStr v) ++ printed) fuel
  | s => execStmts fuel ns "" [s]

/-- Modelled from the spec: `split_code_blocks` (from `creator.utils`, whose
source is not under `src/`) partitions source text into sequential top-level
statement groups; on an already parsed module body each group is one
top-level statement, in order. -/
def split_code_blocks (prog : List Stmt) : List Stmt := prog

/-- Splitting off the final block, as `code_blocks.pop(-1)`. -/
def popLast (blocks : List Stmt) : Option (List Stmt × Stmt) :=
  match blocks.getLast? with
  | Option.none => Option.none
  | some last => some (blocks.dropLast, last)

/-- Outcome of `run_code` as observed at `thread.join`: the thread completed
(leaving its effects in the namespace), or it is still alive, with the
output accumulated in the (never consulted) redirect buffer so far. -/
inductive RunOut
  | finished (ns : Namespace)
  | alive (ns : Namespace) (out : String)
deriving DecidableEq

/-- `run_code`: split the query into blocks, pop the tail, run the body then
the tail; on success clear `_stdout_info` and record nonempty output there;
on a fault store the exception info under `_exec_info`. -/
def run_code (fuel : Nat) (ns : Namespace) (query : List Stmt) : RunOut :=
  match popLast (split_code_blocks query) with
  | Option.none => .finished (nsPop ns "_stdout_info")
  | some (body, last) =>
    match (if body.isEmpty then .ok ns "" fuel else execute_code_blocks fuel ns body) with
    | .exc ns1 _ e => .finished (nsSet ns1 "_exec_info" (.excInfo e.1 e.2))
    | .more ns1 out1 => .alive ns1 out1
    | .ok ns1 out1 fuel1 =>
      match execute_last_line fuel1 ns1 last with
      | .exc ns2 _ e => .finished (nsSet ns2 "_exec_info" (.excInfo e.1 e.2))
      | .more ns2 out2 => .alive ns2 (out1 ++ out2)
      | .ok ns2 out2 _ =>
        let output := out1 ++ out2
        let ns3 := nsPop ns2 "_stdout_info"
        .finished (if output = "" then ns3 else nsSet ns3 "_stdout_info" (.str output))

/-- The structured result dictionary returned to the caller.  `stdout` is
kept as a `Value` because the code returns `namespace.get('_stdout_info', "")`
unconverted, which submitted code can have set to a non-string. -/
structure RunResult where
  status : String
  stdout : Value
  stderr : String
deriving DecidableEq

/-- `"".join(traceback.format_exception(*info))`, defined only when `info`
is an exception tuple; on any other argument CPython's `format_exception`
raises a `TypeError` in the calling context, modelled by `Option.none`. -/
def format_exception : Value → Option String
  | .excInfo ty msg => some (ty ++ ": " ++ msg)
  | _ => Option.none

/-- `run_with_return`: run the code on a worker thread with a join-timeout;
read `_stdout_info` after the join; report a timeout if the thread is still
alive, otherwise pop `_exec_info` and report the fault or the success.
The `Except.error` case is a native `TypeError` from `format_exception`
escaping to the caller. -/
def run_with_return (fuel : Nat) (ns : Namespace) (query : List Stmt) :
    Except PyErr (Namespace × RunResult) :=
  match run_code fuel ns query with
  | .alive ns1 _ =>
    .ok (ns1, ⟨"error", (nsGet ns1 "_stdout_info").getD (.str ""), "Code execution timed out"⟩)
  | .finished ns1 =>
    let stdout := (nsGet ns1 "_stdout_info").getD (.str "")
    match nsPopGet ns1 "_exec_info" with
    | (some info, ns2) =>
      if truthy info then
        match format_exception info with
        | some tb => .ok (ns2, ⟨"error", stdout, tb⟩)
        | Option.none =>
          .error ("TypeError", "format_exception argument is not an exception tuple")
      else .ok (ns2, ⟨"success", stdout, ""⟩)
    | (Option.none, ns2) => .ok (ns2, ⟨"success", stdout, ""⟩)

/-- The persistent interpreter state: the namespace dict owned by the tool
instance, and the one-way `setup_done` restriction latch. -/
structure Interp where
  ns : Namespace
  setup_done : Bool
deriving DecidableEq

/-- `SafePythonInterpreter._run`, the tool entry point: preprocess, report a
saved preprocessing exception if any, otherwise run with the timeout. -/
def _run (fuel : Nat) (i : Interp) (src : Src) : Except PyErr (Interp × RunResult) :=
  let step := preprocess i.setup_done i.ns src
  match nsPopGet step.1 "_preprocess_info" with
  | (some info, ns2) =>
    if truthy info then
      match format_exception info with
      | some tb => .ok ({ i with ns := ns2 }, ⟨"error", .str "", tb⟩)
      | Option.none =>
        .error ("TypeError", "format_exception argument is not an exception tuple")
    else
      (run_with_return fuel ns2 step.2).map (fun p => ({ i with ns := p.1 }, p.2))
  | (Option.none, ns2) =>
    (run_with_return fuel ns2 step.2).map (fun p => ({ i with ns := p.1 }, p.2))

end SafePython

namespace SafePython

/-- A fresh, unrestricted interpreter state (before any `setup` call). -/
def iEmpty : Interp := ⟨[], false⟩

/-- A fresh interpreter state after `setup` has latched the restriction flag. -/
def iRestricted : Interp := ⟨[], true⟩

/-- A bookkeeping slot is harmless for `format_exception`: absent, falsy, or
an actual exception tuple. -/
def exception_like : Option Value → Bool
  | Option.none => true
  | some v => !truthy v || (match v with | .excInfo _ _ => true | _ => false)

/-- A bookkeeping slot holds a string, or nothing. -/
def string_or_absent : Option Value → Bool
  | Option.none => true
  | some (.str _) => true
  | some _ => false

/-- After the worker ran, the bookkeeping slots it left behind are benign:
`_exec_info` is exception-like and `_stdout_info` is a string or absent. -/
def postRunSafe : RunOut → Bool
  | .finished ns1 =>
    exception_like (nsGet ns1 "_exec_info") && string_or_absent (nsGet ns1 "_stdout_info")
  | .alive ns1 _ => string_or_absent (nsGet ns1 "_stdout_info")

theorem nsGet_nsSet_self (ns : Namespace) (k : String) (v : Value) :
    nsGet (nsSet ns k v) k = some v := by
  induction ns with
  | nil => simp [nsSet, nsGet]
  | cons hd tl ih =>
    obtain ⟨k1, v1⟩ := hd
    by_cases h : k1 = k
    · simp [nsSet, nsGet, h]
    · simp [nsSet, nsGet, h, ih]

theorem nsPop_nsSet (ns : Namespace) (k : String) (v : Value) :
    nsPop (nsSet ns k v) k = nsPop ns k := by
  induction ns with
  | nil => simp [nsSet, nsPop]
  | cons hd tl ih =>
    obtain ⟨k1, v1⟩ := hd
    by_cases h : k1 = k
    · simp [nsSet, nsPop, h]
    · simp [nsSet, nsPop, h, ih]

theorem hasSubL_append (a b p : List Char) (h : hasSubL b p = true) :
    hasSubL (a ++ b) p = true := by
  induction a with
  | nil => simpa using h
  | cons c cs ih =>
    simp only [List.cons_append, hasSubL, Bool.or_eq_true]
    exact Or.inr ih

/-- Any call whose unparsed callee contains an `ALLOW_METHODS` substring
passes `is_allowed_method`. -/
theorem is_allowed_method_of_mem (fn : Expr) (args : List Expr) (m : String)
    (hm : m ∈ ALLOW_METHODS) (hc : strContains (unparse fn) m = true) :
    is_allowed_method (.call fn args) = true := by
  simp only [is_allowed_method, List.any_eq_true]
  exact ⟨m, hm, hc⟩

/-- A disallowed statement node always yields a violation message. -/
theorem node_violation_of_disallowed (n : Node) (hn : disallowedStmtNode n = true) :
    ∃ msg, node_violation n = some msg := by
  match n with
  | .stmt (.imp _) => exact ⟨_, rfl⟩
  | .stmt (.impFrom _ _) => exact ⟨_, rfl⟩
  | .stmt (.functionDef _ _) => exact ⟨_, rfl⟩
  | .stmt (.classDef _ _) => exact ⟨_, rfl⟩
  | .mod _ | .stmt (.assign _ _) | .stmt (.exprStmt _) | .stmt (.whileStmt _ _)
  | .stmt .passStmt | .expr _ => simp [disallowedStmtNode] at hn

/-- On a node that is not a disallowed statement kind, a violation can only
come from a call failing both allow-lists, and the message cites the call. -/
theorem node_violation_char (n : Node) (msg : String)
    (hn : disallowedStmtNode n = false) (hv : node_violation n = some msg) :
    ∃ fn args, n = Node.expr (.call fn args) ∧
      is_allowed_function (.call fn args) = false ∧
      is_allowed_method (.call fn args) = false ∧
      msg = "Usage of disallowed function/method: " ++ unparse (.call fn args) := by
  match n with
  | .stmt (.imp _) | .stmt (.impFrom _ _) | .stmt (.functionDef _ _) | .stmt (.classDef _ _) =>
    simp [disallowedStmtNode] at hn
  | .mod _ | .stmt (.assign _ _) | .stmt (.exprStmt _) | .stmt (.whileStmt _ _)
  | .stmt .passStmt | .expr (.name _) | .expr (.constE _) | .expr (.attr _ _)
  | .expr (.binop _ _ _) => simp [node_violation] at hv
  | .expr (.call fn args) =>
    refine ⟨fn, args, rfl, ?_⟩
    simp only [node_violation] at hv
    by_cases hf : is_allowed_function (.call fn args) = true
    · simp [hf] at hv
    · by_cases hm : is_allowed_method (.call fn args) = true
      · simp [hm] at hv
      · simp only [Bool.not_eq_true] at hf hm
        simp [hf, hm] at hv
        exact ⟨hf, hm, hv.symm⟩

/-- A call failing both allow-lists is a violation node. -/
theorem node_violation_call (fn : Expr) (args : List Expr)
    (hf : is_allowed_function (.call fn args) = false)
    (hm : is_allowed_method (.call fn args) = false) :
    node_violation (.expr (.call fn args)) =
      some ("Usage of disallowed function/method: " ++ unparse (.call fn args)) := by
  simp [node_violation, hf, hm]

/-- Behaviour of `_run` when the policy walk finds a violation: the formatted
`ValueError` is returned with empty stdout, no execution happens (the result
does not depend on the fuel), and the only namespace effect is the removal
of a pre-existing `_preprocess_info` binding. -/
theorem run_rejected (i : Interp) (prog : List Stmt) (msg : String)
    (h1 : i.setup_done = true)
    (hfs : (ast_walk prog).findSome? node_violation = some msg) (fuel : Nat) :
    _run fuel i (Src.ok prog) =
      .ok ({ i with ns := nsPop i.ns "_preprocess_info" },
           ⟨"error", .str "", "ValueError: " ++ msg⟩) := by
  have hpre : preprocess i.setup_done i.ns (Src.ok prog) =
      (nsSet i.ns "_preprocess_info" (.excInfo "ValueError" msg), []) := by
    rw [h1]; simp [preprocess, hfs]
  simp only [_run, hpre, nsPopGet, nsGet_nsSet_self, nsPop_nsSet, truthy, format_exception,
    if_true]
  rfl

end SafePython

namespace SafePython

/-- C1 (amended): for every source containing a disallowed construct
submitted under active restriction, `_run` returns status `error` with empty
stdout and a stderr that formats the `ValueError` naming a disallowed
construct or disallowed call present in the source; the result is the same
for every execution budget (no worker runs), and the namespace is unchanged
except that a pre-existing `_preprocess_info` binding is removed. -/
theorem claim_C1 (i : Interp) (prog : List Stmt)
    (h1 : i.setup_done = true)
    (h2 : (ast_walk prog).any disallowedStmtNode = true) :
    ∃ msg, (∃ n ∈ ast_walk prog, node_violation n = some msg) ∧
      ∀ fuel, _run fuel i (Src.ok prog) =
        .ok ({ i with ns := nsPop i.ns "_preprocess_info" },
             ⟨"error", .str "", "ValueError: " ++ msg⟩) := by
  obtain ⟨n, hn, hd⟩ := List.any_eq_true.mp h2
  obtain ⟨m0, hm0⟩ := node_violation_of_disallowed n hd
  cases hfs : (ast_walk prog).findSome? node_violation with
  | none =>
    exact absurd (List.findSome?_eq_none_iff.mp hfs n hn) (by simp [hm0])
  | some msg =>
    obtain ⟨n2, hn2, hv2⟩ := List.exists_of_findSome?_eq_some hfs
    exact ⟨msg, ⟨n2, hn2, hv2⟩, fun fuel => run_rejected i prog msg h1 hfs fuel⟩

/-- C1 witness: a bare `import os` under restriction, on a fresh namespace. -/
theorem claim_C1_witness :
    ∃ msg, (∃ n ∈ ast_walk [Stmt.imp ["os"]], node_violation n = some msg) ∧
      ∀ fuel, _run fuel ⟨[], true⟩ (Src.ok [Stmt.imp ["os"]]) =
        .ok (⟨nsPop [] "_preprocess_info", true⟩, ⟨"error", .str "", "ValueError: " ++ msg⟩) :=
  claim_C1 ⟨[], true⟩ [Stmt.imp ["os"]] rfl (by decide)

/-- C1 counterexample: the claim as stated fails twice.  First, on a source
holding both a disallowed call and an import, stderr cites the call, not the
import/def construct (CPython's breadth-first `ast.walk` reaches the nested
call before the deeper import).  Second, the namespace is not always
unchanged: a rejected call removes a `_preprocess_info` binding that
submitted code had legitimately created in an earlier, accepted call. -/
theorem claim_C1_counterexample :
    ((ast_walk [Stmt.exprStmt (.call (.name "f") []),
        Stmt.whileStmt (.name "x") [.imp ["os"]]]).any disallowedStmtNode = true)
  ∧ _run 100 ⟨[], true⟩ (Src.ok [Stmt.exprStmt (.call (.name "f") []),
        Stmt.whileStmt (.name "x") [.imp ["os"]]]) =
      .ok (⟨[], true⟩,
           ⟨"error", .str "", "ValueError: Usage of disallowed function/method: f()"⟩)
  ∧ strContains "ValueError: Usage of disallowed function/method: f()" "Import" = false
  ∧ _run 100 ⟨[], true⟩ (Src.ok [Stmt.assign "_preprocess_info" (.constE (.int 5))]) =
      .ok (⟨[("_preprocess_info", .int 5)], true⟩, ⟨"success", .str "", ""⟩)
  ∧ _run 100 ⟨[("_preprocess_info", Value.int 5)], true⟩ (Src.ok [Stmt.imp ["os"]]) =
      .ok (⟨[], true⟩, ⟨"error", .str "", "ValueError: Usage of Import nodes is not allowed"⟩)
  ∧ ([] : Namespace) ≠ [("_preprocess_info", Value.int 5)] :=
  ⟨by decide, rfl, by decide, rfl, rfl, by decide⟩

/-- C3 (amended): with the restriction flag false, every syntactically valid
source passes the Policy Checker unchanged, and the constructs restriction
would reject (imports, function definitions) execute normally; a source that
does not parse is however rejected even pre-setup (see the counterexample). -/
theorem claim_C3 :
    (∀ (ns : Namespace) (prog : List Stmt),
        preprocess false ns (Src.ok prog) = (ns, prog))
  ∧ _run 100 iEmpty (Src.ok [.imp ["os"]]) =
      .ok (⟨[("os", .module "os")], false⟩, ⟨"success", .str "", ""⟩)
  ∧ _run 100 iEmpty (Src.ok [.functionDef "f" [.passStmt]]) =
      .ok (⟨[("f", .funcVal "f")], false⟩, ⟨"success", .str "", ""⟩) :=
  ⟨fun _ _ => rfl, rfl, rfl⟩

/-- C3 counterexample: a source string that fails to parse is rejected even
while the restriction flag is still false, because `ast.parse` runs inside
the guarded block of `preprocess` regardless of `setup_done`. -/
theorem claim_C3_counterexample :
    _run 100 iEmpty (Src.bad ("SyntaxError", "invalid syntax")) =
      .ok (iEmpty, ⟨"error", .str "", "SyntaxError: invalid syntax"⟩)
  ∧ "error" ≠ "success" :=
  ⟨rfl, by decide⟩

/-- C4: under active restriction, on a parsed source free of import /
function-definition / class-definition nodes, the source is rejected iff
some call node passes neither `is_allowed_function` nor `is_allowed_method`,
and on rejection the `ValueError` reason cites the offending call's
unparsed source text; `_run` then returns that reason with empty stdout. -/
theorem claim_C4 (i : Interp) (prog : List Stmt)
    (h1 : i.setup_done = true)
    (h2 : (ast_walk prog).all (fun n => !disallowedStmtNode n) = true) :
    (((ast_walk prog).findSome? node_violation).isSome = true ↔
      ∃ fn args, Node.expr (.call fn args) ∈ ast_walk prog ∧
        is_allowed_function (.call fn args) = false ∧
        is_allowed_method (.call fn args) = false)
  ∧ (∀ msg, (ast_walk prog).findSome? node_violation = some msg →
      (∃ fn args, Node.expr (.call fn args) ∈ ast_walk prog ∧
        is_allowed_function (.call fn args) = false ∧
        is_allowed_method (.call fn args) = false ∧
        msg = "Usage of disallowed function/method: " ++ unparse (.call fn args))
      ∧ ∀ fuel, _run fuel i (Src.ok prog) =
          .ok ({ i with ns := nsPop i.ns "_preprocess_info" },
               ⟨"error", .str "", "ValueError: " ++ msg⟩)) := by
  have hall := List.all_eq_true.mp h2
  constructor
  · constructor
    · intro hs
      cases hfs : (ast_walk prog).findSome? node_violation with
      | none => rw [hfs] at hs; simp at hs
      | some msg =>
        obtain ⟨n, hn, hv⟩ := List.exists_of_findSome?_eq_some hfs
        have hd : disallowedStmtNode n = false := by
          have := hall n hn; simpa using this
        obtain ⟨fn, args, hne, hf, hm, _⟩ := node_violation_char n msg hd hv
        exact ⟨fn, args, hne ▸ hn, hf, hm⟩
    · rintro ⟨fn, args, hmem, hf, hm⟩
      cases hfs : (ast_walk prog).findSome? node_violation with
      | none =>
        have hnone := List.findSome?_eq_none_iff.mp hfs _ hmem
        rw [node_violation_call fn args hf hm] at hnone
        simp at hnone
      | some msg => simp
  · intro msg hfs
    obtain ⟨n, hn, hv⟩ := List.exists_of_findSome?_eq_some hfs
    have hd : disallowedStmtNode n = false := by
      have := hall n hn; simpa using this
    obtain ⟨fn, args, hne, hf, hm, hmsg⟩ := node_violation_char n msg hd hv
    exact ⟨⟨fn, args, hne ▸ hn, hf, hm, hmsg⟩,
      fun fuel => run_rejected i prog msg h1 hfs fuel⟩

/-- C4 witness: `open('/etc/passwd')` after setup, on a fresh namespace. -/
theorem claim_C4_witness :
    (((ast_walk [Stmt.exprStmt (.call (.name "open") [.constE (.str "/etc/passwd")])]).findSome?
        node_violation).isSome = true ↔
      ∃ fn args, Node.expr (.call fn args) ∈
          ast_walk [Stmt.exprStmt (.call (.name "open") [.constE (.str "/etc/passwd")])] ∧
        is_allowed_function (.call fn args) = false ∧
        is_allowed_method (.call fn args) = false)
  ∧ (∀ msg, (ast_walk [Stmt.exprStmt (.call (.name "open")
        [.constE (.str "/etc/passwd")])]).findSome? node_violation = some msg →
      (∃ fn args, Node.expr (.call fn args) ∈
          ast_walk [Stmt.exprStmt (.call (.name "open") [.constE (.str "/etc/passwd")])] ∧
        is_allowed_function (.call fn args) = false ∧
        is_allowed_method (.call fn args) = false ∧
        msg = "Usage of disallowed function/method: " ++ unparse (.call fn args))
      ∧ ∀ fuel, _run fuel ⟨[], true⟩
          (Src.ok [Stmt.exprStmt (.call (.name "open") [.constE (.str "/etc/passwd")])]) =
          .ok (⟨nsPop [] "_preprocess_info", true⟩,
               ⟨"error", .str "", "ValueError: " ++ msg⟩)) :=
  claim_C4 ⟨[], true⟩ [Stmt.exprStmt (.call (.name "open") [.constE (.str "/etc/passwd")])]
    rfl (by decide)

/-- C9: the method allow-list is a pure substring test on the unparsed
callee: any call whose callee text contains one of the `ALLOW_METHODS`
substrings is allowed, for any receiver, including longer attribute names
such as `runtime` (which contains `.run`); a call to `a.runtime()` passes
the whole policy check under restriction. -/
theorem claim_C9 :
    (∀ (fn : Expr) (args : List Expr) (m : String), m ∈ ALLOW_METHODS →
        strContains (unparse fn) m = true → is_allowed_method (.call fn args) = true)
  ∧ (∀ (recv : Expr) (args : List Expr),
        is_allowed_method (.call (.attr recv "runtime") args) = true)
  ∧ preprocess true [] (Src.ok [.exprStmt (.call (.attr (.name "a") "runtime") [])]) =
      ([], [.exprStmt (.call (.attr (.name "a") "runtime") [])]) := by
  refine ⟨fun fn args m hm hc => is_allowed_method_of_mem fn args m hm hc, ?_, rfl⟩
  intro recv args
  apply is_allowed_method_of_mem _ _ ".run" (by decide)
  show hasSubL (unparse (Expr.attr recv "runtime")).toList ".run".toList = true
  have h1 : (unparse (Expr.attr recv "runtime")).toList
      = (unparse recv).toList ++ ".runtime".toList := by
    show ((unparse recv).toList ++ ".".toList) ++ "runtime".toList
        = (unparse recv).toList ++ ".runtime".toList
    rw [List.append_assoc]
    rfl
  rw [h1]
  exact hasSubL_append _ _ _ (by decide)

/-- C9 witness: a concrete allowed method call, `obj.show()`. -/
theorem claim_C9_witness :
    is_allowed_method (.call (.attr (.name "obj") "show") []) = true :=
  claim_C9.1 (.attr (.name "obj") "show") [] ".show" (by decide) (by decide)

end SafePython

namespace SafePython

/-- C2 (amended): when the worker completes with a captured fault stored as
an exception tuple under `_exec_info`, the call returns status `error` with
stderr the formatted trace of that fault, and stdout equal to the value
found under `_stdout_info` at join time — which is the output recorded by
the most recent successful call (or a value written by submitted code), not
necessarily the output produced by this call before the fault. -/
theorem claim_C2 (fuel : Nat) (ns : Namespace) (q : List Stmt) (ns1 : Namespace)
    (ty msg : String)
    (h1 : run_code fuel ns q = .finished ns1)
    (h2 : nsGet ns1 "_exec_info" = some (.excInfo ty msg)) :
    run_with_return fuel ns q =
      .ok (nsPop ns1 "_exec_info",
           ⟨"error", (nsGet ns1 "_stdout_info").getD (.str ""), ty ++ ": " ++ msg⟩) := by
  simp only [run_with_return, h1, nsPopGet, h2, truthy, format_exception]
  rfl

/-- C2 witness: `1/0` on a fresh namespace. -/
theorem claim_C2_witness :
    run_with_return 100 [] [.exprStmt (.binop (.constE (.int 1)) .div (.constE (.int 0)))] =
      .ok (nsPop [("_exec_info", Value.excInfo "ZeroDivisionError" "division by zero")]
             "_exec_info",
           ⟨"error",
            (nsGet [("_exec_info", Value.excInfo "ZeroDivisionError" "division by zero")]
               "_stdout_info").getD (.str ""),
            "ZeroDivisionError" ++ ": " ++ "division by zero"⟩) :=
  claim_C2 100 [] [.exprStmt (.binop (.constE (.int 1)) .div (.constE (.int 0)))]
    [("_exec_info", Value.excInfo "ZeroDivisionError" "division by zero")]
    "ZeroDivisionError" "division by zero" rfl rfl

/-- C2 counterexample: after `print('hi')` succeeds, a faulting `1/0` call
reports `stdout = "hi\n"` — output of a different, earlier call — even
though the faulting call itself produced no output before the fault. -/
theorem claim_C2_counterexample :
    _run 100 iEmpty (Src.ok [.exprStmt (.call (.name "print") [.constE (.str "hi")])]) =
      .ok (⟨[("_stdout_info", .str "hi\n")], false⟩, ⟨"success", .str "hi\n", ""⟩)
  ∧ _run 100 ⟨[("_stdout_info", Value.str "hi\n")], false⟩
      (Src.ok [.exprStmt (.binop (.constE (.int 1)) .div (.constE (.int 0)))]) =
      .ok (⟨[("_stdout_info", .str "hi\n")], false⟩,
           ⟨"error", .str "hi\n", "ZeroDivisionError: division by zero"⟩)
  ∧ execute_last_line 100 [("_stdout_info", Value.str "hi\n")]
      (.exprStmt (.binop (.constE (.int 1)) .div (.constE (.int 0)))) =
      .exc [("_stdout_info", Value.str "hi\n")] "" ("ZeroDivisionError", "division by zero")
  ∧ Value.str "hi\n" ≠ Value.str "" :=
  ⟨rfl, rfl, rfl, by decide⟩

/-- C5 (amended): when the worker is still alive at the join, the call
returns status `error` with stderr exactly `"Code execution timed out"` and
stdout equal to the value found under `_stdout_info` in the namespace at
join time — the most recent successful call's recorded output, not the
partial output of the timed-out call (which stays in the redirect buffer). -/
theorem claim_C5 (fuel : Nat) (ns : Namespace) (q : List Stmt) (ns1 : Namespace)
    (out : String)
    (h : run_code fuel ns q = .alive ns1 out) :
    run_with_return fuel ns q =
      .ok (ns1, ⟨"error", (nsGet ns1 "_stdout_info").getD (.str ""),
           "Code execution timed out"⟩) := by
  simp only [run_with_return, h]

/-- C5 witness: `while True: pass` with a tiny budget, on a fresh namespace. -/
theorem claim_C5_witness :
    run_with_return 3 [] [.whileStmt (.constE (.bool true)) [.passStmt]] =
      .ok ([], ⟨"error", (nsGet [] "_stdout_info").getD (.str ""),
           "Code execution timed out"⟩) :=
  claim_C5 3 [] [.whileStmt (.constE (.bool true)) [.passStmt]] [] "" rfl

/-- C5 counterexample: after a successful `print('aa')`, a call that prints
`"now"` and then loops forever reports, on timeout, `stdout = "aa\n"` — the
previous call's recorded output — although its own partial output at the
join was `"now\n"`. -/
theorem claim_C5_counterexample :
    _run 100 iEmpty (Src.ok [.exprStmt (.call (.name "print") [.constE (.str "aa")])]) =
      .ok (⟨[("_stdout_info", .str "aa\n")], false⟩, ⟨"success", .str "aa\n", ""⟩)
  ∧ run_code 20 [("_stdout_info", Value.str "aa\n")]
      [.exprStmt (.call (.name "print") [.constE (.str "now")]),
       .whileStmt (.constE (.bool true)) [.passStmt]] =
      .alive [("_stdout_info", Value.str "aa\n")] "now\n"
  ∧ _run 20 ⟨[("_stdout_info", Value.str "aa\n")], false⟩
      (Src.ok [.exprStmt (.call (.name "print") [.constE (.str "now")]),
               .whileStmt (.constE (.bool true)) [.passStmt]]) =
      .ok (⟨[("_stdout_info", Value.str "aa\n")], false⟩,
           ⟨"error", .str "aa\n", "Code execution timed out"⟩)
  ∧ Value.str "aa\n" ≠ Value.str "now\n" :=
  ⟨rfl, rfl, rfl, by decide⟩

/-- C6: dual-mode tail handling.  `x = 5 ; x + 1` succeeds with stdout
`"6"`; `x = 1 ; x = 2` succeeds with stdout `""`; a tail group is treated
as an expression exactly when it is an expression statement, in which case
its non-`None` value's textual representation is prepended to the captured
output, a `None` value adds nothing, and a non-expression tail is executed
as a statement with no value capture. -/
theorem claim_C6 :
    _run 100 iEmpty (Src.ok [.assign "x" (.constE (.int 5)),
        .exprStmt (.binop (.name "x") .add (.constE (.int 1)))]) =
      .ok (⟨[("x", .int 5), ("_stdout_info", .str "6")], false⟩, ⟨"success", .str "6", ""⟩)
  ∧ _run 100 iEmpty (Src.ok [.assign "x" (.constE (.int 1)),
        .assign "x" (.constE (.int 2))]) =
      .ok (⟨[("x", .int 2)], false⟩, ⟨"success", .str "", ""⟩)
  ∧ (∀ s : Stmt, is_expression s = true ↔ ∃ e, s = Stmt.exprStmt e)
  ∧ (∀ (fuel : Nat) (ns : Namespace) (e : Expr) (out : String) (v : Value),
        evalExpr ns e = (out, .ok v) → v ≠ Value.none →
        execute_last_line fuel ns (.exprStmt e) = .ok ns (pyStr v ++ out) fuel)
  ∧ (∀ (fuel : Nat) (ns : Namespace) (e : Expr) (out : String),
        evalExpr ns e = (out, .ok Value.none) →
        execute_last_line fuel ns (.exprStmt e) = .ok ns out fuel)
  ∧ (∀ (fuel : Nat) (ns : Namespace) (s : Stmt), is_expression s = false →
        execute_last_line fuel ns s = execStmts fuel ns "" [s]) := by
  refine ⟨rfl, rfl, ?_, ?_, ?_, ?_⟩
  · intro s
    cases s <;> simp [is_expression]
  · intro fuel ns e out v hev hv
    simp only [execute_last_line, hev]
    simp [hv]
  · intro fuel ns e out hev
    simp only [execute_last_line, hev]
    rfl
  · intro fuel ns s hs
    cases s
    all_goals first
      | rfl
      | simp [is_expression] at hs

/-- C6 witness: an expression tail with a non-`None` value. -/
theorem claim_C6_witness :
    execute_last_line 7 [] (.exprStmt (.constE (.int 3))) =
      .ok [] (pyStr (.int 3) ++ "") 7 :=
  claim_C6.2.2.2.1 7 [] (.constE (.int 3)) "" (.int 3) rfl (by decide)

/-- C7: the namespace persists across calls and is mutated in place:
`y = 10` then `y + 5` prints `15`; and even when a call faults, the
statements executed before the fault (here `z = 3` before `1/0`) have
already mutated the namespace, so a following `z + 1` prints `4`. -/
theorem claim_C7 :
    _run 100 iEmpty (Src.ok [.assign "y" (.constE (.int 10))]) =
      .ok (⟨[("y", .int 10)], false⟩, ⟨"success", .str "", ""⟩)
  ∧ _run 100 ⟨[("y", Value.int 10)], false⟩
      (Src.ok [.exprStmt (.binop (.name "y") .add (.constE (.int 5)))]) =
      .ok (⟨[("y", .int 10), ("_stdout_info", .str "15")], false⟩,
           ⟨"success", .str "15", ""⟩)
  ∧ _run 100 iEmpty (Src.ok [.assign "z" (.constE (.int 3)),
        .exprStmt (.binop (.constE (.int 1)) .div (.constE (.int 0)))]) =
      .ok (⟨[("z", .int 3)], false⟩,
           ⟨"error", .str "", "ZeroDivisionError: division by zero"⟩)
  ∧ _run 100 ⟨[("z", Value.int 3)], false⟩
      (Src.ok [.exprStmt (.binop (.name "z") .add (.constE (.int 1)))]) =
      .ok (⟨[("z", .int 3), ("_stdout_info", .str "4")], false⟩,
           ⟨"success", .str "4", ""⟩) :=
  ⟨rfl, rfl, rfl, rfl⟩

/-- C10: the engine's bookkeeping lives in the same namespace submitted code
executes in: code overwriting `_stdout_info` makes the engine report the
forged value; `_stdout_info` is cleared only on the success path (a
successful call clears a leftover value and reports `""`), while a faulting
or timed-out call leaves the leftover value in place and reports it as its
own stdout. -/
theorem claim_C10 :
    _run 100 iEmpty (Src.ok [.assign "_stdout_info" (.constE (.str "pwned")),
        .exprStmt (.binop (.constE (.int 1)) .div (.constE (.int 0)))]) =
      .ok (⟨[("_stdout_info", .str "pwned")], false⟩,
           ⟨"error", .str "pwned", "ZeroDivisionError: division by zero"⟩)
  ∧ _run 100 ⟨[("_stdout_info", Value.str "old")], false⟩
      (Src.ok [.assign "k" (.constE (.int 1))]) =
      .ok (⟨[("k", .int 1)], false⟩, ⟨"success", .str "", ""⟩)
  ∧ _run 100 ⟨[("_stdout_info", Value.str "old")], false⟩
      (Src.ok [.exprStmt (.binop (.constE (.int 2)) .div (.constE (.int 0)))]) =
      .ok (⟨[("_stdout_info", .str "old")], false⟩,
           ⟨"error", .str "old", "ZeroDivisionError: division by zero"⟩)
  ∧ _run 10 ⟨[("_stdout_info", Value.str "old")], false⟩
      (Src.ok [.whileStmt (.constE (.bool true)) [.passStmt]]) =
      .ok (⟨[("_stdout_info", .str "old")], false⟩,
           ⟨"error", .str "old", "Code execution timed out"⟩) :=
  ⟨rfl, rfl, rfl, rfl⟩

end SafePython


namespace SafePython

/-- A benign `_stdout_info` slot yields a string stdout field. -/
theorem stdout_str_of_safe (ns1 : Namespace)
    (h : string_or_absent (nsGet ns1 "_stdout_info") = true) :
    ∃ s, (nsGet ns1 "_stdout_info").getD (Value.str "") = Value.str s := by
  cases hg : nsGet ns1 "_stdout_info" with
  | none => exact ⟨"", rfl⟩
  | some v =>
    rw [hg] at h
    cases v with
    | str s => exact ⟨s, rfl⟩
    | none => simp [string_or_absent] at h
    | bool b => simp [string_or_absent] at h
    | int n => simp [string_or_absent] at h
    | module m => simp [string_or_absent] at h
    | funcVal f => simp [string_or_absent] at h
    | classVal c => simp [string_or_absent] at h
    | printFn => simp [string_or_absent] at h
    | excInfo ty msg => simp [string_or_absent] at h

/-- If the bookkeeping slots left by the worker are benign, the join-side
wrapper returns a well-formed result. -/
theorem run_with_return_wellformed (fuel : Nat) (ns : Namespace) (q : List Stmt)
    (h : postRunSafe (run_code fuel ns q) = true) :
    ∃ m r, run_with_return fuel ns q = .ok (m, r) ∧
      (r.status = "success" ∨ r.status = "error") ∧
      (r.status = "success" → r.stderr = "") ∧
      (∃ s, r.stdout = Value.str s) := by
  cases hrc : run_code fuel ns q with
  | alive ns1 out =>
    rw [hrc] at h
    simp only [postRunSafe] at h
    obtain ⟨s, hs⟩ := stdout_str_of_safe ns1 h
    exact ⟨ns1,
      ⟨"error", (nsGet ns1 "_stdout_info").getD (Value.str ""), "Code execution timed out"⟩,
      by simp only [run_with_return, hrc],
      Or.inr rfl,
      fun hcon => absurd hcon (by decide : ¬ ("error" : String) = "success"),
      ⟨s, hs⟩⟩
  | finished ns1 =>
    rw [hrc] at h
    simp only [postRunSafe, Bool.and_eq_true] at h
    obtain ⟨hexc, hstd⟩ := h
    obtain ⟨s, hs⟩ := stdout_str_of_safe ns1 hstd
    cases hg : nsGet ns1 "_exec_info" with
    | none =>
      exact ⟨nsPop ns1 "_exec_info",
        ⟨"success", (nsGet ns1 "_stdout_info").getD (Value.str ""), ""⟩,
        by simp only [run_with_return, hrc, nsPopGet, hg],
        Or.inl rfl, fun _ => rfl, ⟨s, hs⟩⟩
    | some info =>
      rw [hg] at hexc
      cases htr : truthy info with
      | false =>
        exact ⟨nsPop ns1 "_exec_info",
          ⟨"success", (nsGet ns1 "_stdout_info").getD (Value.str ""), ""⟩,
          by simp only [run_with_return, hrc, nsPopGet, hg, htr]; rfl,
          Or.inl rfl, fun _ => rfl, ⟨s, hs⟩⟩
      | true =>
        simp only [exception_like, htr, Bool.not_true, Bool.false_or] at hexc
        cases info with
        | excInfo ty msg =>
          exact ⟨nsPop ns1 "_exec_info",
            ⟨"error", (nsGet ns1 "_stdout_info").getD (Value.str ""), ty ++ ": " ++ msg⟩,
            by simp only [run_with_return, hrc, nsPopGet, hg, htr, format_exception]; rfl,
            Or.inr rfl,
            fun hcon => absurd hcon (by decide : ¬ ("error" : String) = "success"),
            ⟨s, hs⟩⟩
        | none => simp at hexc
        | bool b => simp at hexc
        | int n => simp at hexc
        | str s2 => simp at hexc
        | module m => simp at hexc
        | funcVal f => simp at hexc
        | classVal c => simp at hexc
        | printFn => simp at hexc

/-- C8 (amended): provided submitted code has not stored a foreign truthy
value under `_preprocess_info` / `_exec_info` nor a non-string under
`_stdout_info`, the entry point returns a well-formed result: status is
`"success"` or `"error"`, stdout is a string, stderr is empty whenever the
status is `"success"`, and no fault crosses to the caller natively (the
counterexample shows the proviso is necessary). -/
theorem claim_C8 (fuel : Nat) (i : Interp) (src : Src)
    (h1 : exception_like
        (nsGet (preprocess i.setup_done i.ns src).1 "_preprocess_info") = true)
    (h2 : postRunSafe (run_code fuel
        (nsPop (preprocess i.setup_done i.ns src).1 "_preprocess_info")
        (preprocess i.setup_done i.ns src).2) = true) :
    ∃ j r, _run fuel i src = .ok (j, r) ∧
      (r.status = "success" ∨ r.status = "error") ∧
      (r.status = "success" → r.stderr = "") ∧
      (∃ s, r.stdout = Value.str s) := by
  cases hg : nsGet (preprocess i.setup_done i.ns src).1 "_preprocess_info" with
  | none =>
    obtain ⟨m, r, hrun, hst, hsc, hsd⟩ := run_with_return_wellformed fuel
      (nsPop (preprocess i.setup_done i.ns src).1 "_preprocess_info")
      (preprocess i.setup_done i.ns src).2 h2
    refine ⟨{ i with ns := m }, r, ?_, hst, hsc, hsd⟩
    simp only [_run, nsPopGet, hg, hrun]
    rfl
  | some info =>
    rw [hg] at h1
    cases htr : truthy info with
    | false =>
      obtain ⟨m, r, hrun, hst, hsc, hsd⟩ := run_with_return_wellformed fuel
        (nsPop (preprocess i.setup_done i.ns src).1 "_preprocess_info")
        (preprocess i.setup_done i.ns src).2 h2
      refine ⟨{ i with ns := m }, r, ?_, hst, hsc, hsd⟩
      simp only [_run, nsPopGet, hg, htr, hrun]
      rfl
    | true =>
      simp only [exception_like, htr, Bool.not_true, Bool.false_or] at h1
      cases info with
      | excInfo ty msg =>
        exact ⟨{ i with ns := nsPop (preprocess i.setup_done i.ns src).1 "_preprocess_info" },
          ⟨"error", .str "", ty ++ ": " ++ msg⟩,
          by simp only [_run, nsPopGet, hg, htr, format_exception]; rfl,
          Or.inr rfl,
          fun hcon => absurd hcon (by decide : ¬ ("error" : String) = "success"),
          ⟨"", rfl⟩⟩
      | none => simp at h1
      | bool b => simp at h1
      | int n => simp at h1
      | str s2 => simp at h1
      | module m => simp at h1
      | funcVal f => simp at h1
      | classVal c => simp at h1
      | printFn => simp at h1

/-- C8 witness: an ordinary assignment on a fresh interpreter. -/
theorem claim_C8_witness :
    ∃ j r, _run 50 iEmpty (Src.ok [.assign "w" (.constE (.int 1))]) = .ok (j, r) ∧
      (r.status = "success" ∨ r.status = "error") ∧
      (r.status = "success" → r.stderr = "") ∧
      (∃ s, r.stdout = Value.str s) :=
  claim_C8 50 iEmpty (Src.ok [.assign "w" (.constE (.int 1))]) (by decide) (by decide)

/-- C8 counterexample: submitted code stores the integer `7` under
`_exec_info`; `traceback.format_exception(*7)` then raises a native
`TypeError` in the calling context, so the entry point raises instead of
returning a result value. -/
theorem claim_C8_counterexample :
    _run 100 iEmpty (Src.ok [.assign "_exec_info" (.constE (.int 7))]) =
      .error ("TypeError", "format_exception argument is not an exception tuple")
  ∧ (_run 100 iEmpty (Src.ok [.assign "_exec_info" (.constE (.int 7))])).toOption =
      Option.none :=
  ⟨rfl, rfl⟩

end SafePython
